import Mathlib

/-!
Verification of the meal-context recommendation core of the
nourish-pregnancy-nutrition repository.

The embedding below mirrors the TypeScript module that classifies meals by
eating context, scores recipes against a context, and ranks a recipe pool
for a given meal slot.  Strings are modelled as lists of characters,
JavaScript numbers as rationals where fractional thresholds matter, and the
stable JavaScript array sort as insertion sort.
-/

namespace Nourish

/-- Characters of a Lean string literal, used to transcribe the string
literals of the source. -/
def strChars (s : String) : List Char := s.data

/-- Test whether the second list is an initial segment of the first
argument list. -/
def leadsWith : List Char → List Char → Bool
  | [], _ => true
  | _ :: _, [] => false
  | c :: cs, d :: ds => c == d && leadsWith cs ds

/-- Embedding of the JavaScript substring test used via the string method
includes: the needle occurs contiguously somewhere in the haystack. -/
def strIncludes (hay need : List Char) : Bool :=
  (List.range (hay.length + 1)).any (fun i => leadsWith need (hay.drop i))

/-- Embedding of the JavaScript method toLowerCase, restricted to the ASCII
lowering of Lean core. -/
def lcStr (t : List Char) : List Char := t.map Char.toLower

/-- The six eating contexts of the source module. -/
inductive EatingContext where
  | first_thing
  | morning_fuel
  | midday_sustain
  | quick_bite
  | substantial
  | wind_down
deriving DecidableEq, Repr

/-- The four meal purposes of the source module. -/
inductive MealPurpose where
  | nausea_relief
  | energy
  | nutrient_dense
  | hydrating
deriving DecidableEq, Repr

/-- Macros record of a recipe.  Fields are optional rationals: the source
normalizes an absent calorie count to zero with a disjunction against 0,
and compares an absent fat count with a plain greater-than, which is false
in JavaScript for undefined. -/
structure Macros where
  calories : Option ℚ
  protein : Option ℚ
  carbs : Option ℚ
  fat : Option ℚ
deriving DecidableEq, Repr

/-- Recipe record, restricted to the fields the scoring core reads. -/
structure Recipe where
  id : String
  title : List Char
  macros : Macros
  pregnancy_tags : List (List Char)
deriving DecidableEq, Repr

/-- Static configuration record of one eating context. -/
structure ContextConfig where
  label : String
  description : String
  keywords : List (List Char)
  maxCalories : ℚ
  priorityPurposes : List MealPurpose

/-- The static six-entry configuration table of the source. -/
def EATING_CONTEXT_CONFIG : EatingContext → ContextConfig
  | .first_thing =>
    { label := "First Thing"
      description := "Light & gentle on the stomach"
      keywords := ["crackers", "toast", "ginger", "tea", "dry", "bland", "light"].map strChars
      maxCalories := 200
      priorityPurposes := [.nausea_relief] }
  | .morning_fuel =>
    { label := "Morning Fuel"
      description := "Energy to start your day"
      keywords := ["oatmeal", "smoothie", "yogurt", "fruit", "granola", "banana", "overnight"].map strChars
      maxCalories := 400
      priorityPurposes := [.energy, .nutrient_dense] }
  | .midday_sustain =>
    { label := "Midday Sustain"
      description := "Balanced nutrition"
      keywords := ["salad", "bowl", "wrap", "sandwich", "quinoa", "lunch", "soup"].map strChars
      maxCalories := 500
      priorityPurposes := [.nutrient_dense, .energy] }
  | .quick_bite =>
    { label := "Quick Bite"
      description := "Easy grab-and-go"
      keywords := ["bites", "snack", "nuts", "hummus", "energy", "small", "mini", "crackers"].map strChars
      maxCalories := 250
      priorityPurposes := [.energy] }
  | .substantial =>
    { label := "Substantial Meal"
      description := "Protein-rich nourishment"
      keywords := ["chicken", "salmon", "fish", "beef", "steak", "dinner", "pasta", "stir-fry", "curry"].map strChars
      maxCalories := 600
      priorityPurposes := [.nutrient_dense] }
  | .wind_down =>
    { label := "Wind Down"
      description := "Calm & calcium-rich"
      keywords := ["milk", "warm", "cheese", "cottage", "yogurt", "light", "evening"].map strChars
      maxCalories := 300
      priorityPurposes := [.hydrating] }

/-- Embedding of getContextForMealNumber: a switch over the meal number
whose default arm is the wind-down context. -/
def getContextForMealNumber (mealNumber : Int) : EatingContext :=
  if mealNumber = 1 then .first_thing
  else if mealNumber = 2 then .morning_fuel
  else if mealNumber = 3 then .midday_sustain
  else if mealNumber = 4 then .quick_bite
  else if mealNumber = 5 then .substantial
  else .wind_down

/-- Condition of the nausea-relief arm of detectPurpose. -/
def nauseaCond (r : Recipe) : Bool :=
  (r.pregnancy_tags.map lcStr).any (fun t => strIncludes t (strChars "nausea"))
    || strIncludes (lcStr r.title) (strChars "ginger")
    || strIncludes (lcStr r.title) (strChars "bland")

/-- Condition of the energy arm of detectPurpose. -/
def energyCond (r : Recipe) : Bool :=
  (r.pregnancy_tags.map lcStr).any
    (fun t => strIncludes t (strChars "energy") || strIncludes t (strChars "protein"))

/-- Condition of the nutrient-dense arm of detectPurpose. -/
def nutrientCond (r : Recipe) : Bool :=
  (r.pregnancy_tags.map lcStr).any
    (fun t => strIncludes t (strChars "iron") || strIncludes t (strChars "folic")
      || strIncludes t (strChars "calcium"))

/-- Condition of the hydrating arm of detectPurpose. -/
def hydratingCond (r : Recipe) : Bool :=
  (r.pregnancy_tags.map lcStr).any (fun t => strIncludes t (strChars "hydrat"))
    || strIncludes (lcStr r.title) (strChars "soup")
    || strIncludes (lcStr r.title) (strChars "smoothie")

/-- Embedding of detectPurpose: push one purpose per matching arm, then
fall back to the energy singleton when no arm matched. -/
def detectPurpose (recipe : Recipe) : List MealPurpose :=
  let purposes : List MealPurpose :=
    (if nauseaCond recipe then [.nausea_relief] else [])
      ++ (if energyCond recipe then [.energy] else [])
      ++ (if nutrientCond recipe then [.nutrient_dense] else [])
      ++ (if hydratingCond recipe then [.hydrating] else [])
  if 0 < purposes.length then purposes else [.energy]

/-- Calories of a recipe with the source normalization of an absent value
to zero. -/
def calsOf (r : Recipe) : ℚ := r.macros.calories.getD 0

/-- The fat comparison of the first-thing special case; false when the fat
field is absent, as the JavaScript comparison is. -/
def fatGt15 (r : Recipe) : Bool :=
  match r.macros.fat with
  | some f => decide (15 < f)
  | none => false

/-- Title condition of the first-thing bonus special case. -/
def firstThingBonusCond (r : Recipe) : Bool :=
  strIncludes (lcStr r.title) (strChars "ginger")
    || strIncludes (lcStr r.title) (strChars "cracker")

/-- Heaviness condition of the first-thing penalty special case. -/
def firstThingPenaltyCond (r : Recipe) : Bool :=
  fatGt15 r || decide (300 < calsOf r)

/-- Title condition of the wind-down bonus special case. -/
def windDownBonusCond (r : Recipe) : Bool :=
  strIncludes (lcStr r.title) (strChars "milk")
    || strIncludes (lcStr r.title) (strChars "yogurt")
    || strIncludes (lcStr r.title) (strChars "cheese")

/-- First loop of scoreRecipeForContext: add 15 per context keyword
occurring in the lower-cased title, starting from the initial score 0. -/
def titleKeywordScore (recipe : Recipe) (context : EatingContext) : Int :=
  (EATING_CONTEXT_CONFIG context).keywords.foldl
    (fun score keyword =>
      if strIncludes (lcStr recipe.title) keyword then score + 15 else score) 0

/-- Second loop of scoreRecipeForContext: add 10 per pair of a tag and a
context keyword with the keyword occurring in the lower-cased tag. -/
def tagKeywordScore (recipe : Recipe) (context : EatingContext) (score : Int) : Int :=
  recipe.pregnancy_tags.foldl
    (fun score tag =>
      (EATING_CONTEXT_CONFIG context).keywords.foldl
        (fun s keyword => if strIncludes (lcStr tag) keyword then s + 10 else s) score)
    score

/-- Calorie branch of scoreRecipeForContext: bonus 10 under the ceiling,
penalty 15 above one and a half times the ceiling. -/
def calorieAdjust (recipe : Recipe) (context : EatingContext) (score : Int) : Int :=
  if calsOf recipe ≤ (EATING_CONTEXT_CONFIG context).maxCalories then score + 10
  else if (EATING_CONTEXT_CONFIG context).maxCalories * (3 / 2 : ℚ) < calsOf recipe then
    score - 15
  else score

/-- Purpose loop of scoreRecipeForContext: add 20 per priority purpose of
the context contained in the detected purposes of the recipe. -/
def purposeScore (recipe : Recipe) (context : EatingContext) (score : Int) : Int :=
  (EATING_CONTEXT_CONFIG context).priorityPurposes.foldl
    (fun score purpose =>
      if (detectPurpose recipe).contains purpose then score + 20 else score) score

/-- Special-case branches of scoreRecipeForContext for the first-thing and
wind-down contexts. -/
def specialAdjust (recipe : Recipe) (context : EatingContext) (score : Int) : Int :=
  let score5 :=
    if context = .first_thing then
      let a := if firstThingBonusCond recipe then score + 30 else score
      if firstThingPenaltyCond recipe then a - 25 else a
    else score
  if context = .wind_down then
    if windDownBonusCond recipe then score5 + 20 else score5
  else score5

/-- Embedding of scoreRecipeForContext: the sequential mutation of the
score variable of the source, one stage per source block. -/
def scoreRecipeForContext (recipe : Recipe) (context : EatingContext) : Int :=
  specialAdjust recipe context
    (purposeScore recipe context
      (calorieAdjust recipe context
        (tagKeywordScore recipe context (titleKeywordScore recipe context))))

/-- Ranking relation of the sort call of getSmartRecipesForMeal: higher
score first. -/
def byScoreDesc (a b : Recipe × Int) : Prop := b.2 ≤ a.2

instance : DecidableRel byScoreDesc := fun a b => inferInstanceAs (Decidable (b.2 ≤ a.2))

instance : IsTotal (Recipe × Int) byScoreDesc := ⟨fun a b => Int.le_total b.2 a.2⟩

instance : IsTrans (Recipe × Int) byScoreDesc := ⟨fun _ _ _ h1 h2 => le_trans h2 h1⟩

/-- Embedding of getSmartRecipesForMeal: resolve the context, drop excluded
ids, pair every survivor with its score, sort by score descending with a
stable sort, and return the recipes. -/
def getSmartRecipesForMeal (recipes : List Recipe) (mealNumber : Int)
    (excludeIds : List String) : List Recipe :=
  let context := getContextForMealNumber mealNumber
  let available := recipes.filter (fun r => !(excludeIds.contains r.id))
  let scored := available.map (fun r => (r, scoreRecipeForContext r context))
  let sorted := List.insertionSort byScoreDesc scored
  sorted.map Prod.fst

/-- Embedding of getContextInfo. -/
def getContextInfo (mealNumber : Int) : EatingContext × String × String :=
  let context := getContextForMealNumber mealNumber
  let config := EATING_CONTEXT_CONFIG context
  (context, config.label, config.description)

/-- Number of context keywords occurring in the lower-cased title. -/
def titleMatchCount (r : Recipe) (c : EatingContext) : Nat :=
  ((EATING_CONTEXT_CONFIG c).keywords.filter
    (fun k => strIncludes (lcStr r.title) k)).length

/-- Number of pairs of a tag and a context keyword with the keyword
occurring in the lower-cased tag. -/
def tagPairCount (r : Recipe) (c : EatingContext) : Nat :=
  (r.pregnancy_tags.map
    (fun t => ((EATING_CONTEXT_CONFIG c).keywords.filter
      (fun k => strIncludes (lcStr t) k)).length)).sum

/-- Calorie-fit contribution of the score. -/
def calorieTerm (r : Recipe) (c : EatingContext) : Int :=
  if calsOf r ≤ (EATING_CONTEXT_CONFIG c).maxCalories then 10
  else if (EATING_CONTEXT_CONFIG c).maxCalories * (3 / 2 : ℚ) < calsOf r then -15
  else 0

/-- Number of priority purposes of the context detected on the recipe. -/
def purposeMatchCount (r : Recipe) (c : EatingContext) : Nat :=
  ((EATING_CONTEXT_CONFIG c).priorityPurposes.filter
    (fun p => (detectPurpose r).contains p)).length

/-- Context-specific override contribution of the score. -/
def specialTerm (r : Recipe) (c : EatingContext) : Int :=
  (if c = .first_thing then
    (if firstThingBonusCond r then 30 else 0) + (if firstThingPenaltyCond r then -25 else 0)
  else 0)
    + (if c = .wind_down then (if windDownBonusCond r then 20 else 0) else 0)

lemma foldl_count_add {α : Type} (p : α → Bool) (m : Int) :
    ∀ (l : List α) (a : Int),
      l.foldl (fun acc k => if p k then acc + m else acc) a
        = a + m * ((l.filter p).length : Int) := by
  intro l
  induction l with
  | nil => intro a; simp
  | cons x xs ih =>
    intro a
    cases hx : p x
    · simp [hx, List.filter_cons, ih]
    · simp [hx, List.filter_cons, ih]
      ring

lemma foldl_tag_count (kws : List (List Char)) (m : Int) :
    ∀ (tags : List (List Char)) (a : Int),
      tags.foldl
        (fun acc tag =>
          kws.foldl (fun s k => if strIncludes (lcStr tag) k then s + m else s) acc) a
        = a + m * (((tags.map
            (fun t => (kws.filter (fun k => strIncludes (lcStr t) k)).length)).sum : Int)) := by
  intro tags
  induction tags with
  | nil => intro a; simp
  | cons t ts ih =>
    intro a
    rw [List.foldl_cons, ih, foldl_count_add, List.map_cons, List.sum_cons]
    push_cast
    ring

lemma titleKeywordScore_eq (r : Recipe) (c : EatingContext) :
    titleKeywordScore r c = 15 * (titleMatchCount r c : Int) := by
  unfold titleKeywordScore titleMatchCount
  rw [foldl_count_add]
  ring

lemma tagKeywordScore_eq (r : Recipe) (c : EatingContext) (s : Int) :
    tagKeywordScore r c s = s + 10 * (tagPairCount r c : Int) := by
  unfold tagKeywordScore tagPairCount
  rw [foldl_tag_count]

lemma calorieAdjust_eq (r : Recipe) (c : EatingContext) (s : Int) :
    calorieAdjust r c s = s + calorieTerm r c := by
  unfold calorieAdjust calorieTerm
  split_ifs <;> ring

lemma purposeScore_eq (r : Recipe) (c : EatingContext) (s : Int) :
    purposeScore r c s = s + 20 * (purposeMatchCount r c : Int) := by
  unfold purposeScore purposeMatchCount
  rw [foldl_count_add]

lemma specialAdjust_eq (r : Recipe) (c : EatingContext) (s : Int) :
    specialAdjust r c s = s + specialTerm r c := by
  simp only [specialAdjust, specialTerm]
  split_ifs <;> ring

/-- Decomposition of the score into its five independent contributions. -/
lemma score_eq_contrib (r : Recipe) (c : EatingContext) :
    scoreRecipeForContext r c
      = 15 * (titleMatchCount r c : Int) + 10 * (tagPairCount r c : Int)
        + calorieTerm r c + 20 * (purposeMatchCount r c : Int) + specialTerm r c := by
  unfold scoreRecipeForContext
  rw [titleKeywordScore_eq, tagKeywordScore_eq, calorieAdjust_eq, purposeScore_eq,
    specialAdjust_eq]

lemma keywords_lc (c : EatingContext) :
    ∀ k ∈ (EATING_CONTEXT_CONFIG c).keywords, lcStr k = k := by
  cases c <;> decide

/-- Number of pairs of a tag and a context keyword where the lower-cased
tag contains the lower-cased keyword, as the specification words it. -/
def tagPairCountSpec (r : Recipe) (c : EatingContext) : Nat :=
  (r.pregnancy_tags.map
    (fun t => ((EATING_CONTEXT_CONFIG c).keywords.filter
      (fun k => strIncludes (lcStr t) (lcStr k))).length)).sum

lemma filter_lc (q : List Char → Bool) (kws : List (List Char))
    (h : ∀ k ∈ kws, lcStr k = k) :
    kws.filter (fun k => q (lcStr k)) = kws.filter q :=
  List.filter_congr (fun a ha => by rw [h a ha])

lemma tagPairCountSpec_eq (r : Recipe) (c : EatingContext) :
    tagPairCountSpec r c = tagPairCount r c := by
  unfold tagPairCountSpec tagPairCount
  have h : ∀ t : List Char,
      ((EATING_CONTEXT_CONFIG c).keywords.filter
        (fun k => strIncludes (lcStr t) (lcStr k))).length
        = ((EATING_CONTEXT_CONFIG c).keywords.filter
            (fun k => strIncludes (lcStr t) k)).length :=
    fun t => congrArg List.length (filter_lc _ _ (keywords_lc c))
  simp only [h]

/-- C1: scoreRecipeForContext is a sum of independent contributions, with
15 added per context keyword occurring as a substring of the lower-cased
title and 10 added per pair of a tag and a keyword where the lower-cased
tag contains the lower-cased keyword, counting combinatorially over
pairs. -/
theorem score_is_sum_of_contributions (r : Recipe) (c : EatingContext) :
    scoreRecipeForContext r c
      = 15 * (titleMatchCount r c : Int) + 10 * (tagPairCountSpec r c : Int)
        + calorieTerm r c + 20 * (purposeMatchCount r c : Int) + specialTerm r c := by
  rw [tagPairCountSpec_eq, score_eq_contrib]

/-- C2: every integer meal number resolves to one of the six contexts,
with 1 through 5 mapped as tabulated and every other integer, including
zero, negatives and values of six or more, mapped to the wind-down
default; the function is total. -/
theorem getContextForMealNumber_spec (n : Int) (h1 : n ≠ 1) (h2 : n ≠ 2)
    (h3 : n ≠ 3) (h4 : n ≠ 4) (h5 : n ≠ 5) :
    getContextForMealNumber n = .wind_down
      ∧ getContextForMealNumber 1 = .first_thing
      ∧ getContextForMealNumber 2 = .morning_fuel
      ∧ getContextForMealNumber 3 = .midday_sustain
      ∧ getContextForMealNumber 4 = .quick_bite
      ∧ getContextForMealNumber 5 = .substantial := by
  refine ⟨?_, by decide, by decide, by decide, by decide, by decide⟩
  simp [getContextForMealNumber, h1, h2, h3, h4, h5]

theorem getContextForMealNumber_spec_witness :
    getContextForMealNumber (-5) = .wind_down
      ∧ getContextForMealNumber 1 = .first_thing
      ∧ getContextForMealNumber 2 = .morning_fuel
      ∧ getContextForMealNumber 3 = .midday_sustain
      ∧ getContextForMealNumber 4 = .quick_bite
      ∧ getContextForMealNumber 5 = .substantial :=
  getContextForMealNumber_spec (-5) (by decide) (by decide) (by decide) (by decide)
    (by decide)

/-- C3: detectPurpose yields a non-empty purpose list; whenever some arm
condition holds, membership of each purpose is exactly its arm condition,
and when no arm condition holds the result is the energy singleton. -/
theorem detectPurpose_spec (r : Recipe) :
    detectPurpose r ≠ []
      ∧ ((nauseaCond r = true ∨ energyCond r = true ∨ nutrientCond r = true
            ∨ hydratingCond r = true) →
          ((MealPurpose.nausea_relief ∈ detectPurpose r ↔ nauseaCond r = true)
            ∧ (MealPurpose.energy ∈ detectPurpose r ↔ energyCond r = true)
            ∧ (MealPurpose.nutrient_dense ∈ detectPurpose r ↔ nutrientCond r = true)
            ∧ (MealPurpose.hydrating ∈ detectPurpose r ↔ hydratingCond r = true)))
      ∧ (¬(nauseaCond r = true ∨ energyCond r = true ∨ nutrientCond r = true
            ∨ hydratingCond r = true) →
          detectPurpose r = [MealPurpose.energy]) := by
  by_cases hA : nauseaCond r = true <;> by_cases hB : energyCond r = true <;>
    by_cases hC : nutrientCond r = true <;> by_cases hD : hydratingCond r = true <;>
    simp [detectPurpose, hA, hB, hC, hD]

/-- Sample recipe whose only tag is an iron tag, used to instantiate
theorems with hypotheses. -/
def ironSnack : Recipe :=
  { id := "iron-snack"
    title := strChars "Apricot Bites"
    macros := { calories := some 150, protein := some 4, carbs := some 20, fat := some 5 }
    pregnancy_tags := [strChars "Iron Rich"] }

theorem detectPurpose_spec_witness :
    detectPurpose ironSnack ≠ []
      ∧ (MealPurpose.nutrient_dense ∈ detectPurpose ironSnack
          ↔ nutrientCond ironSnack = true) :=
  ⟨(detectPurpose_spec ironSnack).1,
    ((detectPurpose_spec ironSnack).2.1 (by decide)).2.2.1⟩

/-- The ginger-tea recipe of the first test scenario. -/
def gingerTea : Recipe :=
  { id := "ginger-tea"
    title := strChars "Ginger Tea"
    macros := { calories := some 50, protein := some 1, carbs := some 10, fat := some 0 }
    pregnancy_tags := [strChars "Nausea Relief"] }

/-- C8: the ginger-tea scenario recipe scores strictly above 60 against
the first-thing context. -/
theorem gingerTea_score_exceeds_60 :
    60 < scoreRecipeForContext gingerTea .first_thing := by decide

/-- The grilled-salmon recipe of the second test scenario. -/
def grilledSalmon : Recipe :=
  { id := "grilled-salmon"
    title := strChars "Grilled Salmon Steak"
    macros := { calories := some 650, protein := some 40, carbs := some 5, fat := some 30 }
    pregnancy_tags := [strChars "Omega-3"] }

/-- C9: the grilled-salmon scenario recipe scores strictly below zero
against the first-thing context. -/
theorem grilledSalmon_score_negative :
    scoreRecipeForContext grilledSalmon .first_thing < 0 := by
  rw [score_eq_contrib]
  have h1 : titleMatchCount grilledSalmon .first_thing = 1 := by decide
  have h2 : tagPairCount grilledSalmon .first_thing = 0 := by decide
  have h3 : purposeMatchCount grilledSalmon .first_thing = 0 := by decide
  have h4 : specialTerm grilledSalmon .first_thing = -25 := by decide
  have h5 : calorieTerm grilledSalmon .first_thing = -15 := by
    unfold calorieTerm
    norm_num [calsOf, grilledSalmon, EATING_CONTEXT_CONFIG]
  rw [h1, h2, h3, h4, h5]
  norm_num

/-- Score of a recipe with the calorie-fit contribution removed. -/
def scoreSansCalorie (r : Recipe) (c : EatingContext) : Int :=
  15 * (titleMatchCount r c : Int) + 10 * (tagPairCount r c : Int)
    + 20 * (purposeMatchCount r c : Int) + specialTerm r c

/-- C5: the calorie-fit contribution is exactly plus 10 at or under the
ceiling, minus 15 strictly above one and a half times the ceiling, and
zero strictly between the ceiling and one and a half times the ceiling as
well as at exactly one and a half times the ceiling; absent calories are
normalized to zero. -/
theorem calorieFit_spec (r : Recipe) (c : EatingContext) :
    (r.macros.calories = none → calsOf r = 0)
      ∧ (calsOf r ≤ (EATING_CONTEXT_CONFIG c).maxCalories →
          scoreRecipeForContext r c = scoreSansCalorie r c + 10)
      ∧ ((EATING_CONTEXT_CONFIG c).maxCalories * (3 / 2 : ℚ) < calsOf r →
          scoreRecipeForContext r c = scoreSansCalorie r c - 15)
      ∧ ((EATING_CONTEXT_CONFIG c).maxCalories < calsOf r
            ∧ calsOf r ≤ (EATING_CONTEXT_CONFIG c).maxCalories * (3 / 2 : ℚ) →
          scoreRecipeForContext r c = scoreSansCalorie r c) := by
  have hmax : (0 : ℚ) < (EATING_CONTEXT_CONFIG c).maxCalories := by
    cases c <;> norm_num [EATING_CONTEXT_CONFIG]
  refine ⟨fun h => by simp [calsOf, h], ?_, ?_, ?_⟩
  · intro h
    rw [score_eq_contrib]
    unfold scoreSansCalorie calorieTerm
    rw [if_pos h]
    ring
  · intro h
    have hn : ¬ calsOf r ≤ (EATING_CONTEXT_CONFIG c).maxCalories := by
      intro hc
      have hlt := lt_of_lt_of_le h hc
      linarith
    rw [score_eq_contrib]
    unfold scoreSansCalorie calorieTerm
    rw [if_neg hn, if_pos h]
    ring
  · rintro ⟨ha, hb⟩
    rw [score_eq_contrib]
    unfold scoreSansCalorie calorieTerm
    rw [if_neg (not_le.mpr ha), if_neg (not_lt.mpr hb)]
    ring

theorem calorieFit_spec_witness :
    calsOf ironSnack ≤ (EATING_CONTEXT_CONFIG .quick_bite).maxCalories
      ∧ scoreRecipeForContext ironSnack .quick_bite
          = scoreSansCalorie ironSnack .quick_bite + 10 :=
  ⟨by decide, (calorieFit_spec ironSnack .quick_bite).2.1 (by decide)⟩

/-- Score of a recipe with the purpose-alignment contribution removed. -/
def scoreSansPurpose (r : Recipe) (c : EatingContext) : Int :=
  15 * (titleMatchCount r c : Int) + 10 * (tagPairCount r c : Int)
    + calorieTerm r c + specialTerm r c

/-- Number of priority purposes of the context that are members of the
detected purpose list, the alignment count as the specification words
it. -/
def purposeMatchCountSpec (r : Recipe) (c : EatingContext) : Nat :=
  ((EATING_CONTEXT_CONFIG c).priorityPurposes.filter
    (fun p => decide (p ∈ detectPurpose r))).length

lemma purposeMatchCountSpec_eq (r : Recipe) (c : EatingContext) :
    purposeMatchCountSpec r c = purposeMatchCount r c := by
  unfold purposeMatchCountSpec purposeMatchCount
  congr 1
  apply List.filter_congr
  intro p _
  by_cases hm : p ∈ detectPurpose r <;> simp [hm]

/-- C6: the purpose-alignment contribution is 20 per priority purpose of
the context detected on the recipe, uncapped; against the morning-fuel
context a recipe detected with both the energy and the nutrient-dense
purposes gains 40 from this term. -/
theorem purposeAlignment_spec (r : Recipe) (c : EatingContext) :
    scoreRecipeForContext r c
        = scoreSansPurpose r c + 20 * (purposeMatchCountSpec r c : Int)
      ∧ (MealPurpose.energy ∈ detectPurpose r →
          MealPurpose.nutrient_dense ∈ detectPurpose r →
          scoreRecipeForContext r .morning_fuel
            = scoreSansPurpose r .morning_fuel + 40) := by
  constructor
  · rw [score_eq_contrib, purposeMatchCountSpec_eq]
    unfold scoreSansPurpose
    ring
  · intro h1 h2
    have hcount : purposeMatchCount r .morning_fuel = 2 := by
      unfold purposeMatchCount
      simp [EATING_CONTEXT_CONFIG, List.filter_cons, h1, h2]
    rw [score_eq_contrib, hcount]
    unfold scoreSansPurpose
    ring

/-- Recipe tagged with both an energy tag and an iron tag. -/
def energyIronMix : Recipe :=
  { id := "energy-iron-mix"
    title := strChars "Trail Mix"
    macros := { calories := some 200, protein := some 6, carbs := some 25, fat := some 9 }
    pregnancy_tags := [strChars "Energy Boost", strChars "Iron Rich"] }

theorem purposeAlignment_spec_witness :
    scoreRecipeForContext energyIronMix .morning_fuel
      = scoreSansPurpose energyIronMix .morning_fuel + 40 :=
  (purposeAlignment_spec energyIronMix .morning_fuel).2 (by decide) (by decide)

/-- Score of a recipe with the context-specific override contribution
removed. -/
def baseScore (r : Recipe) (c : EatingContext) : Int :=
  15 * (titleMatchCount r c : Int) + 10 * (tagPairCount r c : Int)
    + calorieTerm r c + 20 * (purposeMatchCount r c : Int)

/-- C7: override contributions exist only for the first-thing and
wind-down contexts and are added on top of the base contributions: for
first-thing a bonus of 30 for a ginger or cracker title and an independent
penalty of 25 for fat above 15 or calories above 300, for wind-down a
bonus of 20 for a milk, yogurt or cheese title; the four other contexts
get no special-case adjustment. -/
theorem specialCases_spec (r : Recipe) (c : EatingContext)
    (h1 : c ≠ .first_thing) (h2 : c ≠ .wind_down) :
    scoreRecipeForContext r c = baseScore r c
      ∧ scoreRecipeForContext r .first_thing
          = baseScore r .first_thing + ((if firstThingBonusCond r then 30 else 0)
              + (if firstThingPenaltyCond r then -25 else 0))
      ∧ scoreRecipeForContext r .wind_down
          = baseScore r .wind_down + (if windDownBonusCond r then 20 else 0) := by
  refine ⟨?_, ?_, ?_⟩ <;> rw [score_eq_contrib] <;> unfold baseScore specialTerm <;> simp [h1, h2]

theorem specialCases_spec_witness :
    scoreRecipeForContext ironSnack .quick_bite = baseScore ironSnack .quick_bite :=
  (specialCases_spec ironSnack .quick_bite (by decide) (by decide)).1

/-- C10: the score reads only the title, the tags, the calories and the
fat of a recipe; two recipes agreeing on those four fields score equally
against every context, whatever their id, protein and carbs. -/
theorem score_reads_only_title_tags_calories_fat (r1 r2 : Recipe) (c : EatingContext)
    (ht : r1.title = r2.title) (htg : r1.pregnancy_tags = r2.pregnancy_tags)
    (hc : r1.macros.calories = r2.macros.calories)
    (hf : r1.macros.fat = r2.macros.fat) :
    scoreRecipeForContext r1 c = scoreRecipeForContext r2 c := by
  obtain ⟨i1, t1, ⟨c1, p1, cb1, f1⟩, g1⟩ := r1
  obtain ⟨i2, t2, ⟨c2, p2, cb2, f2⟩, g2⟩ := r2
  dsimp only at ht htg hc hf
  subst ht htg hc hf
  rw [score_eq_contrib, score_eq_contrib]
  simp only [titleMatchCount, tagPairCount, calorieTerm, purposeMatchCount, specialTerm,
    calsOf, fatGt15, firstThingBonusCond, firstThingPenaltyCond, windDownBonusCond,
    detectPurpose, nauseaCond, energyCond, nutrientCond, hydratingCond]

/-- Recipe agreeing with ironSnack on title, tags, calories and fat but
differing in id, protein and carbs. -/
def ironSnackVariant : Recipe :=
  { id := "iron-snack-b"
    title := strChars "Apricot Bites"
    macros := { calories := some 150, protein := some 9, carbs := some 33, fat := some 5 }
    pregnancy_tags := [strChars "Iron Rich"] }

theorem score_reads_only_title_tags_calories_fat_witness :
    scoreRecipeForContext ironSnack .first_thing
      = scoreRecipeForContext ironSnackVariant .first_thing :=
  score_reads_only_title_tags_calories_fat ironSnack ironSnackVariant .first_thing
    rfl rfl rfl rfl

lemma orderedInsert_filter_key (x : Recipe × Int) (k : Int) :
    ∀ l : List (Recipe × Int),
      (List.orderedInsert byScoreDesc x l).filter (fun a => a.2 == k)
        = if x.2 = k then x :: l.filter (fun a => a.2 == k)
          else l.filter (fun a => a.2 == k) := by
  intro l
  induction l with
  | nil =>
    by_cases h : x.2 = k <;> simp [List.orderedInsert, List.filter_cons, h]
  | cons y l ih =>
    simp only [List.orderedInsert]
    by_cases hxy : byScoreDesc x y
    · rw [if_pos hxy]
      by_cases h : x.2 = k <;> simp [List.filter_cons, h]
    · rw [if_neg hxy]
      have hxy2 : ¬ (y.2 ≤ x.2) := hxy
      have hlt : x.2 < y.2 := not_le.mp hxy2
      by_cases hyk : y.2 = k
      · have hxk : x.2 ≠ k := by omega
        simp [List.filter_cons, hyk, ih, hxk]
      · simp [List.filter_cons, hyk, ih]

lemma insertionSort_filter_key (k : Int) :
    ∀ l : List (Recipe × Int),
      (List.insertionSort byScoreDesc l).filter (fun a => a.2 == k)
        = l.filter (fun a => a.2 == k) := by
  intro l
  induction l with
  | nil => rfl
  | cons x l ih =>
    simp only [List.insertionSort, orderedInsert_filter_key, ih, List.filter_cons]
    by_cases h : x.2 = k <;> simp [h]

/-- Recipes of a pool paired with their scores against a context, the
intermediate list the ranking sorts. -/
def scoredList (ctx : EatingContext) (l : List Recipe) : List (Recipe × Int) :=
  l.map (fun r => (r, scoreRecipeForContext r ctx))

lemma scoredList_map_fst (ctx : EatingContext) (l : List Recipe) :
    (scoredList ctx l).map Prod.fst = l := by
  unfold scoredList
  rw [List.map_map,
    show (Prod.fst ∘ fun r => (r, scoreRecipeForContext r ctx)) = id from rfl,
    List.map_id]

lemma scoredList_snd (ctx : EatingContext) (l : List Recipe) :
    ∀ p ∈ List.insertionSort byScoreDesc (scoredList ctx l),
      p.2 = scoreRecipeForContext p.1 ctx := by
  intro p hp
  have hp2 : p ∈ scoredList ctx l :=
    (List.perm_insertionSort byScoreDesc (scoredList ctx l)).mem_iff.mp hp
  obtain ⟨r, _, rfl⟩ := List.mem_map.mp hp2
  rfl

lemma rank_perm (ctx : EatingContext) (l : List Recipe) :
    ((List.insertionSort byScoreDesc (scoredList ctx l)).map Prod.fst).Perm l := by
  have h := (List.perm_insertionSort byScoreDesc (scoredList ctx l)).map Prod.fst
  rwa [scoredList_map_fst] at h

lemma rank_pairwise (ctx : EatingContext) (l : List Recipe) :
    List.Pairwise
      (fun a b => scoreRecipeForContext b ctx ≤ scoreRecipeForContext a ctx)
      ((List.insertionSort byScoreDesc (scoredList ctx l)).map Prod.fst) := by
  have hs := List.sorted_insertionSort byScoreDesc (scoredList ctx l)
  rw [List.pairwise_map]
  refine List.Pairwise.imp_of_mem ?_ hs
  intro a b ha hb hr
  have ha2 := scoredList_snd ctx l a ha
  have hb2 := scoredList_snd ctx l b hb
  rw [← ha2, ← hb2]
  exact hr

lemma rank_stable (ctx : EatingContext) (l : List Recipe) (s : Int) :
    ((List.insertionSort byScoreDesc (scoredList ctx l)).map Prod.fst).filter
        (fun r => scoreRecipeForContext r ctx == s)
      = l.filter (fun r => scoreRecipeForContext r ctx == s) := by
  rw [List.filter_map]
  have hc1 : (List.insertionSort byScoreDesc (scoredList ctx l)).filter
        ((fun r => scoreRecipeForContext r ctx == s) ∘ Prod.fst)
      = (List.insertionSort byScoreDesc (scoredList ctx l)).filter (fun a => a.2 == s) := by
    refine List.filter_congr ?_
    intro a ha
    have h2 := scoredList_snd ctx l a ha
    simp only [Function.comp_apply]
    rw [h2]
  rw [hc1, insertionSort_filter_key]
  unfold scoredList
  rw [List.filter_map, List.map_map,
    show (Prod.fst ∘ fun r => (r, scoreRecipeForContext r ctx)) = id from rfl,
    List.map_id]
  exact rfl

/-- C4: the ranking keeps exactly the non-excluded recipes of the pool,
each exactly once, sorted descending by score against the resolved
context, with equal-score recipes keeping their relative order from the
pool. -/
theorem getSmartRecipesForMeal_spec (P : List Recipe) (n : Int) (E : List String) :
    (getSmartRecipesForMeal P n E).Perm (P.filter (fun r => !(E.contains r.id)))
      ∧ (∀ r ∈ getSmartRecipesForMeal P n E, r.id ∉ E)
      ∧ List.Pairwise
          (fun a b => scoreRecipeForContext b (getContextForMealNumber n)
            ≤ scoreRecipeForContext a (getContextForMealNumber n))
          (getSmartRecipesForMeal P n E)
      ∧ ∀ s : Int,
          (getSmartRecipesForMeal P n E).filter
              (fun r => scoreRecipeForContext r (getContextForMealNumber n) == s)
            = (P.filter (fun r => !(E.contains r.id))).filter
                (fun r => scoreRecipeForContext r (getContextForMealNumber n) == s) := by
  have hout : getSmartRecipesForMeal P n E
      = (List.insertionSort byScoreDesc
          (scoredList (getContextForMealNumber n)
            (P.filter (fun r => !(E.contains r.id))))).map Prod.fst := rfl
  refine ⟨?_, ?_, ?_, ?_⟩
  · rw [hout]
    exact rank_perm _ _
  · intro r hr
    rw [hout] at hr
    have h2 : r ∈ P.filter (fun r => !(E.contains r.id)) := (rank_perm _ _).mem_iff.mp hr
    have h3 := (List.mem_filter.mp h2).2
    intro hmemE
    have h4 : E.contains r.id = true := by simp [hmemE]
    rw [h4] at h3
    simp at h3
  · rw [hout]
    exact rank_pairwise _ _
  · intro s
    rw [hout]
    exact rank_stable _ _ s

theorem getSmartRecipesForMeal_spec_witness :
    (getSmartRecipesForMeal [ironSnack, energyIronMix] 2 ["iron-snack"]).Perm
      ([ironSnack, energyIronMix].filter
        (fun r => !((["iron-snack"] : List String).contains r.id))) :=
  (getSmartRecipesForMeal_spec [ironSnack, energyIronMix] 2 ["iron-snack"]).1

end Nourish
